import Mathlib

/-!
Verification development for the Webscraper-LLM backend
(`src/server/app/main.py`, `src/server/app/webscrape.py`).

The Python sources are shallowly embedded: pure functions become Lean
functions, the `async` orchestrator `process_clone_job` becomes a pure
state-passing function whose `await`ed external calls (the scrape, the
processing step, the OpenAI chat call) are supplied as explicit outcome
parameters, and Python exceptions become explicit `Except` error values.
The in-memory job store `jobs_db` is modelled by its entry at the one job
identifier an orchestrator run touches (`Option CloneJob`; `none` means
the key is absent, so a mutation raises `KeyError`, exactly as a Python
dict-index-then-setattr does).  Every store mutation and every
`manager.send_update` call is additionally recorded in an explicit action
trace so that ordering properties (store-then-publish, progress
monotonicity) can be stated about a run.
-/

/-- Job lifecycle states, from the `CloneStatus` enum (main.py lines 37-43). -/
inductive CloneStatus where
  | pending
  | scraping
  | processing
  | generating
  | completed
  | failed
deriving DecidableEq

/-- Terminal statuses of the lifecycle (`completed` and `failed`). -/
def isTerminalStatus : CloneStatus → Bool
  | .completed => true
  | .failed => true
  | _ => false

/-- Python exceptions that the embedded code can raise.  `PyErr.keyError`
models a dict lookup on a missing key, `PyErr.attributeError` an access to
an attribute the `ScrapingResult` dataclass does not declare, and
`PyErr.exc` an arbitrary external exception with its message. -/
inductive PyErr where
  | keyError (key : String)
  | attributeError (attr : String)
  | exc (msg : String)
deriving DecidableEq

/-- Python `str(e)` on the exceptions above: `str(KeyError(k))` is the
repr of the key, `str(AttributeError(...))` is the standard message for a
missing attribute on a `ScrapingResult` instance. -/
def PyErr.str : PyErr → String
  | .keyError k => "\x27" ++ k ++ "\x27"
  | .attributeError a => "\x27ScrapingResult\x27 object has no attribute \x27" ++ a ++ "\x27"
  | .exc m => m

/-- The `typography` dict of a scrape result.  The code under
verification reads only the `"fonts"` key (with a default), so the dict is
modelled at that key; `none` means the key is absent and the empty
structure `{}` is the empty dict. -/
structure Typography where
  fonts : Option (List String) := none
deriving DecidableEq

/-- The `assets` dict of a scrape result, modelled at the `"images"` key,
the only one the verified code reads. -/
structure Assets where
  images : Option (List String) := none
deriving DecidableEq

/-- The `layout_info` dict of a scrape result, modelled at the `"type"`
key, the only one the verified code reads. -/
structure LayoutInfo where
  type : Option String := none
deriving DecidableEq

/-- The `metadata` dict of a scrape result, modelled at the `"title"` and
`"description"` keys, the only ones the verified code reads. -/
structure PageMetadata where
  title : Option String := none
  description : Option String := none
deriving DecidableEq

/-- The `ScrapingResult` dataclass (webscrape.py lines 25-37).  Its fields
are exactly the declared ones: `url`, `screenshots` (viewport name to
base64 image), `dom_structure`, `extracted_css`, `typography`,
`color_palette`, `layout_info`, `assets`, `metadata`, `success`,
`error_message`.  Note that the dataclass does NOT declare
`video_recording`, `computed_styles`, `visual_elements` or
`interaction_states`, although main.py reads those attributes; such a read
raises `AttributeError` and is embedded as an explicit `PyErr`.  The
`extracted_css` payload is never inspected by the verified code, so its
entries are kept as opaque key/value strings. -/
structure ScrapingResult where
  url : String
  screenshots : List (String × String)
  dom_structure : String
  extracted_css : List (String × String)
  typography : Typography
  color_palette : List String
  layout_info : LayoutInfo
  assets : Assets
  metadata : PageMetadata
  success : Bool
  error_message : Option String := none
deriving DecidableEq

/-- `WebScrape._create_error_result` (webscrape.py lines 847-853): all
structural fields empty, `success = False`, the given error message. -/
def create_error_result (url msg : String) : ScrapingResult :=
  { url := url, screenshots := [], dom_structure := "", extracted_css := [],
    typography := {}, color_palette := [], layout_info := {}, assets := {},
    metadata := {}, success := false, error_message := some msg }

/-- The `processed_data` dict that `process_scraping_data` would return,
modelled at the keys its consumers (`create_fallback_html` and the dead
result assembly) read via `.get` with defaults: `url`, `color_palette`,
`typography`, `metadata`.  `none` means the key is absent. -/
structure ProcessedData where
  url : Option String := none
  color_palette : Option (List String) := none
  typography : Option Typography := none
  metadata : Option PageMetadata := none
deriving DecidableEq

/-- The `result_data` payload a completed job would carry (main.py lines
229-249).  In the source its construction reads
`scraping_result.video_recording`, an attribute `ScrapingResult` does not
declare, so the payload is never actually constructed; the type records
the two leading entries for the sake of the `CloneJob` field type. -/
structure ResultData where
  original_url : String
  generated_html : String
deriving DecidableEq

/-- The `CloneJob` pydantic model (main.py lines 50-58). -/
structure CloneJob where
  job_id : String
  status : CloneStatus
  url : String
  progress : Nat
  created_at : String
  completed_at : Option String := none
  error_message : Option String := none
  result_data : Option ResultData := none
deriving DecidableEq

/-- The job record `clone_url` stores on submission (main.py lines
126-135): status `pending`, progress `0`, no terminal fields. -/
def makeCloneJob (job_id url created_at : String) : CloneJob :=
  { job_id := job_id, status := .pending, url := url, progress := 0,
    created_at := created_at }

/-- One progress message sent through `manager.send_update`: the dicts
built at main.py lines 159-165, 175-182, 190-196, 205-211, 220-226 and
258-265 carry `status` and `progress`, and on the failure paths also
`error_message`. -/
structure Event where
  status : CloneStatus
  progress : Nat
  error_message : Option String := none
deriving DecidableEq

/-- One Python statement `jobs_db[job_id].<field> = value`. -/
inductive FieldAssign where
  | status (v : CloneStatus)
  | progress (v : Nat)
  | error_message (v : Option String)
  | completed_at (v : Option String)
  | result_data (v : Option ResultData)
deriving DecidableEq

/-- Effect of a single field assignment on the job record. -/
def applyAssign (j : CloneJob) : FieldAssign → CloneJob
  | .status v => { j with status := v }
  | .progress v => { j with progress := v }
  | .error_message v => { j with error_message := v }
  | .completed_at v => { j with completed_at := v }
  | .result_data v => { j with result_data := v }

/-- Observable actions of an orchestrator run: a store mutation (with the
record as committed after it) or a `send_update` publish (with the store
snapshot the event was built from). -/
inductive StoreAction where
  | assign (f : FieldAssign) (after : CloneJob)
  | publish (e : Event) (snapshot : CloneJob)
deriving DecidableEq

/-- Threaded state of an orchestrator run: the `jobs_db` entry for the
job (absent once the job is deleted) and the recorded action trace. -/
structure St where
  store : Option CloneJob
  trace : List StoreAction
deriving DecidableEq

/-- A Python statement `jobs_db[job_id].<field> = value`: indexing a dict
on a missing key raises `KeyError(job_id)`; otherwise the field is updated
in place.  A missing record is never recreated. -/
def St.mutate (st : St) (job_id : String) (f : FieldAssign) : Except (PyErr × St) St :=
  match st.store with
  | none => .error (PyErr.keyError job_id, st)
  | some j =>
    let j2 := applyAssign j f
    .ok { store := some j2, trace := st.trace ++ [StoreAction.assign f j2] }

/-- A call `manager.send_update(job_id, {...})` whose payload dict is
built by reading `jobs_db[job_id]` (so it raises `KeyError` when the
record is gone): it carries the stored status and progress and, when
`withErr` (the failure-path sends), the stored `error_message`. -/
def St.sendFromStore (st : St) (job_id : String) (withErr : Bool) : Except (PyErr × St) St :=
  match st.store with
  | none => .error (PyErr.keyError job_id, st)
  | some j =>
    let e : Event := { status := j.status, progress := j.progress,
                       error_message := if withErr then j.error_message else none }
    .ok { st with trace := st.trace ++ [StoreAction.publish e j] }

/-- Events published during a run, in order. -/
def sentEvents (t : List StoreAction) : List Event :=
  t.filterMap fun a => match a with
    | .publish e _ => some e
    | _ => none

/-- Publishes paired with the store snapshot each was built from. -/
def publishes (t : List StoreAction) : List (Event × CloneJob) :=
  t.filterMap fun a => match a with
    | .publish e snap => some (e, snap)
    | _ => none

/-- Store snapshots after each committed mutation, in order. -/
def assignedSnapshots (t : List StoreAction) : List CloneJob :=
  t.filterMap fun a => match a with
    | .assign _ j => some j
    | _ => none

/-- Mutations that assign `progress = 0`. -/
def progressZeroAssigns (t : List StoreAction) : List StoreAction :=
  t.filter fun a => match a with
    | .assign (.progress 0) _ => true
    | _ => false

/-- Every `progress = 0` assignment in the trace immediately follows a
`status = failed` assignment, i.e. it happens only as part of a
transition into the failed state. -/
def okZeroPlacement : List StoreAction → Bool
  | StoreAction.assign (.status .failed) _ :: StoreAction.assign (.progress 0) _ :: rest =>
      okZeroPlacement rest
  | StoreAction.assign (.progress 0) _ :: _ => false
  | _ :: rest => okZeroPlacement rest
  | [] => true

/-- Characters allowed after the first character of a URL scheme, as in
Python `urllib.parse` (`scheme_chars`): letters, digits, `+`, `-`, `.`. -/
def isSchemeChar (c : Char) : Bool :=
  c.isAlpha || c.isDigit || c = '+' || c = '-' || c = '.'

/-- Split a character list at its first occurrence of `sep`, returning
the parts before and after it, or `none` when `sep` does not occur. -/
def splitAtChar (sep : Char) : List Char → Option (List Char × List Char)
  | [] => none
  | c :: rest =>
    if c = sep then some ([], rest)
    else (splitAtChar sep rest).map fun p => (c :: p.1, p.2)

/-- Scheme extraction of Python `urlparse`: when the text before the
first `:` is a non-empty run starting with a letter and made of scheme
characters, it is the (lowercased) scheme and the remainder follows the
colon; otherwise the scheme is empty and the whole input remains. -/
def schemeSplit (url : String) : String × String :=
  match splitAtChar ':' url.data with
  | none => ("", url)
  | some (before, after) =>
    match before with
    | [] => ("", url)
    | c :: rest =>
      if c.isAlpha && (c :: rest).all isSchemeChar then
        (String.mk ((c :: rest).map Char.toLower), String.mk after)
      else ("", url)

/-- Netloc extraction of Python `urlparse`: when the text after the
scheme starts with `//`, the netloc runs up to the next `/`, `?` or `#`;
otherwise it is empty. -/
def netlocOf (rest : String) : String :=
  match rest.data with
  | '/' :: '/' :: r =>
    String.mk (r.takeWhile fun c => !(c = '/' || c = '?' || c = '#'))
  | _ => ""

/-- `WebScrape._is_valid_url` (webscrape.py lines 839-844):
`urlparse(url)` followed by `all([result.scheme, result.netloc])`, i.e.
both the scheme and the netloc are non-empty. -/
def is_valid_url (url : String) : Bool :=
  let p := schemeSplit url
  decide (p.1 ≠ "") && decide (netlocOf p.2 ≠ "")

/-- Outcome of one iteration of the retry loop in
`WebScrape.scrape_website`: either `_initialize_browser` raises (the only
call in the loop body that can raise — `_perform_scraping` catches its own
exceptions and returns an error result instead), or the iteration obtains
a `ScrapingResult` from `_perform_scraping`. -/
inductive AttemptOutcome where
  | raiseExc (msg : String)
  | result (r : ScrapingResult)
deriving DecidableEq

/-- Observable outcome of a `scrape_website` call: the returned result,
the backoff delays actually slept (in seconds, as exact rationals
`2 ^ attempt + jitter attempt`), the number of loop iterations entered
and the number of `_perform_scraping` invocations. -/
structure ScrapeRun where
  result : ScrapingResult
  delays : List Rat
  attemptsRun : Nat
  performCalls : Nat
deriving DecidableEq

/-- The retry loop of `WebScrape.scrape_website` (webscrape.py lines
55-88), with `i` the current attempt index and the second argument the
remaining iterations.  Each iteration validates the URL (returning the
`"not valid"` error result at once when it fails), then either obtains a
result from `_perform_scraping` — returned when successful, silently
retried with NO backoff sleep when `success` is false — or catches an
exception, which on the last attempt becomes the error result and
otherwise sleeps `2 ** attempt + uniform(0, 1)` before retrying.  Falling
out of the loop yields the `"Max retries exceeded"` result (lines 83-88,
field-for-field the same shape as `_create_error_result`). -/
def scrapeLoop (url : String) (attempts : Nat → AttemptOutcome) (jitter : Nat → Rat) :
    Nat → Nat → ScrapeRun
  | _, 0 =>
    { result := create_error_result url "Max retries exceeded",
      delays := [], attemptsRun := 0, performCalls := 0 }
  | i, rem + 1 =>
    if is_valid_url url = false then
      { result := create_error_result url "not valid",
        delays := [], attemptsRun := 1, performCalls := 0 }
    else
      match attempts i with
      | .result r =>
        if r.success then
          { result := r, delays := [], attemptsRun := 1, performCalls := 1 }
        else
          let rest := scrapeLoop url attempts jitter (i + 1) rem
          { result := rest.result, delays := rest.delays,
            attemptsRun := rest.attemptsRun + 1, performCalls := rest.performCalls + 1 }
      | .raiseExc msg =>
        if rem = 0 then
          { result := create_error_result url msg,
            delays := [], attemptsRun := 1, performCalls := 0 }
        else
          let rest := scrapeLoop url attempts jitter (i + 1) rem
          { result := rest.result,
            delays := ((2 : Rat) ^ i + jitter i) :: rest.delays,
            attemptsRun := rest.attemptsRun + 1, performCalls := rest.performCalls }

/-- `WebScrape.scrape_website(url, max_retries)` (webscrape.py lines
55-88): run the retry loop from attempt 0. -/
def scrape_website (url : String) (attempts : Nat → AttemptOutcome)
    (jitter : Nat → Rat) (max_retries : Nat) : ScrapeRun :=
  scrapeLoop url attempts jitter 0 max_retries

/-- Python `pat in s` for a non-empty pattern: splitting on the pattern
yields more than one part. -/
def strContains (s pat : String) : Bool := 1 < (s.splitOn pat).length

/-- The markdown-fence cleanup in `generate_html_with_llm` (main.py lines
314-320): content containing a ```html fence keeps what stands between
that fence and the next ``` fence, stripped; otherwise content containing
a ``` fence keeps what stands between the first two fences, stripped;
otherwise the content is returned as is.  The list indexings are guarded
by the containment checks, so the `getD` defaults are never taken. -/
def cleanupGeneratedHtml (s : String) : String :=
  if strContains s "```html" then
    String.trim ((((s.splitOn "```html").getD 1 "").splitOn "```").getD 0 "")
  else if strContains s "```" then
    String.trim ((((s.splitOn "```").getD 1 "").splitOn "```").getD 0 "")
  else s

/-- Outcome of the `openai_client.chat.completions.create` call inside
`generate_html_with_llm`: the call raises, or it returns a message whose
`content` is `None` or a string. -/
inductive LlmOutcome where
  | raiseExc (msg : String)
  | content (c : Option String)
deriving DecidableEq

/-- Everything of the `create_fallback_html` f-string template (main.py
lines 839-912) that stands between the leading `<!DOCTYPE html>` and the
closing `</html>` tag, with the interpolations of the source: the page
title, the first font (default `Arial`), the first three palette colors
(defaults `#ffffff`, `#000000`, `#f0f0f0`, `#e0e0e0`, `#333` as in the
source conditionals), the source URL and the palette/font counts.
Literal braces of the CSS are written escaped. -/
def fallbackInner (colors fonts : List String) (title url : String) : String :=
  "\n        <html lang=\"en\">\n        <head>\n" ++
  "            <meta charset=\"UTF-8\">\n" ++
  "            <meta name=\"viewport\" content=\"width=device-width, initial-scale=1.0\">\n" ++
  "            <title>" ++ title ++ "</title>\n" ++
  "            <style>\n" ++
  "                * \x7b\n                    margin: 0;\n                    padding: 0;\n                    box-sizing: border-box;\n                \x7d\n" ++
  "                body \x7b\n                    font-family: " ++ fonts.headD "Arial" ++
  ", sans-serif;\n                    background-color: " ++ colors.headD "#ffffff" ++
  ";\n                    color: " ++ colors.getD 1 "#000000" ++
  ";\n                    line-height: 1.6;\n                    padding: 20px;\n                \x7d\n" ++
  "                .container \x7b\n                    max-width: 1200px;\n                    margin: 0 auto;\n                    padding: 20px;\n                \x7d\n" ++
  "                .header \x7b\n                    text-align: center;\n                    margin-bottom: 40px;\n                    padding: 40px 0;\n                    background: linear-gradient(135deg, " ++
  colors.headD "#f0f0f0" ++ ", " ++ colors.getD 1 "#e0e0e0" ++
  ");\n                    border-radius: 10px;\n                \x7d\n" ++
  "                h1 \x7b\n                    font-size: 2.5rem;\n                    margin-bottom: 10px;\n                    color: " ++
  colors.getD 2 "#333" ++
  ";\n                \x7d\n" ++
  "                .content \x7b\n                    background: white;\n                    padding: 30px;\n                    border-radius: 10px;\n                    box-shadow: 0 4px 6px rgba(0,0,0,0.1);\n                \x7d\n" ++
  "            </style>\n        </head>\n        <body>\n" ++
  "            <div class=\"container\">\n                <div class=\"header\">\n" ++
  "                    <h1>" ++ title ++ "</h1>\n" ++
  "                    <p>Successfully cloned from: " ++ url ++ "</p>\n" ++
  "                </div>\n\n                <div class=\"content\">\n" ++
  "                    <h2>Website Clone Generated</h2>\n" ++
  "                    <p>This is a basic clone. The OpenAI API would generate more sophisticated HTML based on the scraped data.</p>\n\n" ++
  "                    <div style=\"margin-top: 20px;\">\n" ++
  "                        <h3>Detected Elements:</h3>\n                        <ul>\n" ++
  "                            <li>Colors: " ++ toString colors.length ++ " found</li>\n" ++
  "                            <li>Fonts: " ++ toString fonts.length ++ " found</li>\n" ++
  "                            <li>Original URL: " ++ url ++ "</li>\n" ++
  "                        </ul>\n                    </div>\n                </div>\n            </div>\n        </body>\n        "

/-- `create_fallback_html(processed_data)` (main.py lines 834-912): reads
`color_palette`, `typography.fonts` and `metadata.title` from the
processed-data dict with the source defaults, and fills the deterministic
local HTML template.  `x[0] if x else d` is `List.headD`, `x[i] if
len(x) > i else d` is `List.getD`. -/
def create_fallback_html (processed_data : ProcessedData) : String :=
  let colors := processed_data.color_palette.getD ["#ffffff", "#000000"]
  let fonts := ((processed_data.typography.getD {}).fonts).getD ["Arial", "sans-serif"]
  let title := ((processed_data.metadata.getD {}).title).getD "Cloned Website"
  let url := processed_data.url.getD ""
  "\n        " ++ "<!DOCTYPE html>" ++ fallbackInner colors fonts title url ++ "</html>" ++ "\n        "

/-- Non-empty, well-formed HTML document text: a non-empty string that
carries a `<!DOCTYPE html>` declaration and a closing `</html>` tag, in
this order. -/
def isHtmlDocumentText (s : String) : Prop :=
  s ≠ "" ∧ ∃ pre mid post, s = pre ++ "<!DOCTYPE html>" ++ mid ++ "</html>" ++ post

/-- `generate_html_with_llm(processed_data)` (main.py lines 288-324).
The prompt construction is pure and total, so the only exception source
inside the `try` is the OpenAI call, whose outcome is the `call`
parameter: when it raises, the `except` branch returns
`create_fallback_html(processed_data)`; when it succeeds with `None`
content the function returns the empty string (NOT the fallback); when it
succeeds with a string the markdown fences are cleaned up. -/
def generate_html_with_llm (processed_data : ProcessedData) (call : LlmOutcome) : String :=
  match call with
  | .raiseExc _ => create_fallback_html processed_data
  | .content none => ""
  | .content (some s) => cleanupGeneratedHtml s

/-- The `AttributeError` raised by reading `scraping_result.video_recording`
(an attribute the `ScrapingResult` dataclass of webscrape.py does not
declare). -/
def video_recording_attr_error : PyErr := PyErr.attributeError "video_recording"

/-- `process_scraping_data(scraping_result)` (main.py lines 268-285).
The source returns a dict literal whose entries are evaluated in order:
`url` and `screenshots` read declared fields, but the third entry reads
`scraping_result.video_recording` — an attribute the `ScrapingResult`
dataclass (webscrape.py lines 25-37) does not declare — so in Python the
construction raises `AttributeError` on every input and the function
never returns. -/
def process_scraping_data (scraping_result : ScrapingResult) : Except PyErr ProcessedData :=
  Except.error video_recording_attr_error

/-- The subscriber gate of `process_clone_job` (main.py lines 153-154):
`while job_id not in manager.active_connections: await asyncio.sleep(0.1)`.
`attached n` tells whether a subscriber is registered for the job at the
n-th poll; the loop is run with explicit fuel (number of polls observed),
returning the poll index at which it exits, or `none` when the subscriber
has not attached within the observed polls — the loop has no timeout, so
with `attached` constantly false it never exits, at any fuel. -/
def waitForSubscriber (attached : Nat → Bool) : Nat → Nat → Option Nat
  | _, 0 => none
  | k, fuel + 1 => if attached k then some k else waitForSubscriber attached (k + 1) fuel

/-- The body of the `try` block of `process_clone_job` (main.py lines
156-249), after the subscriber gate.  Each `jobs_db[job_id].<field> =`
statement is a `St.mutate`, each `manager.send_update` a
`St.sendFromStore`, in source order: enter `scraping` at progress 10 and
publish; if the scrape result is unsuccessful, enter `failed` at progress
0 with the scrape error message, publish, and return; otherwise enter
`processing` at progress 50 and publish, run the processing step (the
outcome of the awaited `process_scraping_data` call), enter `generating`
at progress 70 and publish, compute the generated HTML, enter `completed`
at progress 100 and publish, set `completed_at` — and then the
`result_data` dict construction (lines 229-249) reads
`scraping_result.video_recording`, an attribute `ScrapingResult` does not
declare, so it raises `AttributeError` and `result_data` is never
assigned. -/
def tryBody (job_id : String) (scraping_result : ScrapingResult)
    (processing : Except PyErr ProcessedData) (llm_call : LlmOutcome)
    (now : String) (st0 : St) : Except (PyErr × St) St :=
  match st0.mutate job_id (.status .scraping) with
  | .error e => .error e
  | .ok st =>
  match st.mutate job_id (.progress 10) with
  | .error e => .error e
  | .ok st =>
  match st.sendFromStore job_id false with
  | .error e => .error e
  | .ok st =>
  if scraping_result.success = false then
    match st.mutate job_id (.status .failed) with
    | .error e => .error e
    | .ok st =>
    match st.mutate job_id (.progress 0) with
    | .error e => .error e
    | .ok st =>
    match st.mutate job_id (.error_message scraping_result.error_message) with
    | .error e => .error e
    | .ok st =>
    st.sendFromStore job_id true
  else
    match st.mutate job_id (.progress 50) with
    | .error e => .error e
    | .ok st =>
    match st.mutate job_id (.status .processing) with
    | .error e => .error e
    | .ok st =>
    match st.sendFromStore job_id false with
    | .error e => .error e
    | .ok st =>
    match processing with
    | .error e => .error (e, st)
    | .ok processed_data =>
    match st.mutate job_id (.progress 70) with
    | .error e => .error e
    | .ok st =>
    match st.mutate job_id (.status .generating) with
    | .error e => .error e
    | .ok st =>
    match st.sendFromStore job_id false with
    | .error e => .error e
    | .ok st =>
    let _generated_html := generate_html_with_llm processed_data llm_call
    match st.mutate job_id (.status .completed) with
    | .error e => .error e
    | .ok st =>
    match st.mutate job_id (.progress 100) with
    | .error e => .error e
    | .ok st =>
    match st.sendFromStore job_id false with
    | .error e => .error e
    | .ok st =>
    match st.mutate job_id (.completed_at (some now)) with
    | .error e => .error e
    | .ok st =>
    Except.error (video_recording_attr_error, st)

/-- The `except` handler of `process_clone_job` (main.py lines 251-265):
enter `failed` at progress 0 with `str(e)` as the error message, set
`completed_at`, and publish.  None of these statements is itself guarded,
so when the job record has been deleted the handler's own dict indexing
raises `KeyError`, which escapes the orchestration unit — that escaping
exception is the second component of the returned pair. -/
def exceptHandler (job_id : String) (now : String) (e : PyErr) (st0 : St) :
    St × Option PyErr :=
  match st0.mutate job_id (.status .failed) with
  | .error (e2, st2) => (st2, some e2)
  | .ok st =>
  match st.mutate job_id (.progress 0) with
  | .error (e2, st2) => (st2, some e2)
  | .ok st =>
  match st.mutate job_id (.error_message (some (PyErr.str e))) with
  | .error (e2, st2) => (st2, some e2)
  | .ok st =>
  match st.mutate job_id (.completed_at (some now)) with
  | .error (e2, st2) => (st2, some e2)
  | .ok st =>
  match st.sendFromStore job_id true with
  | .error (e2, st2) => (st2, some e2)
  | .ok st => (st, none)

/-- Observable outcome of one `process_clone_job` run: the final store
entry for the job, the recorded action trace, an exception that escaped
the detached task (only possible via `KeyError` on a deleted record), and
whether the run got past the subscriber gate at all (`finished = false`
means it is still polling for a subscriber). -/
structure RunOutcome where
  store : Option CloneJob
  trace : List StoreAction
  escaped : Option PyErr
  finished : Bool
deriving DecidableEq

/-- Final status of the stored job after a run, when the record exists. -/
def RunOutcome.finalStatus (r : RunOutcome) : Option CloneStatus :=
  r.store.map fun j => j.status

/-- `process_clone_job(job_id, url)` (main.py lines 151-265): wait for a
subscriber, then run the try body; an exception from the body runs the
`except` handler.  The awaited external steps are passed as outcome
parameters: `scraping_result` for `await scraper.scrape_website(url)`
(which always returns a `ScrapingResult`, never raises — see
`scrape_website`), `processing` for `await process_scraping_data(...)`,
`llm_call` for the OpenAI call inside `await generate_html_with_llm(...)`
(which itself never raises).  `now` stands for `str(datetime.now())` and
`store0` is the `jobs_db` entry for `job_id` (absent when the job has
been deleted).  The `url` argument is consumed by the scrape call and by
the dead `result_data` assembly only. -/
def process_clone_job (job_id url : String) (attached : Nat → Bool) (fuel : Nat)
    (scraping_result : ScrapingResult) (processing : Except PyErr ProcessedData)
    (llm_call : LlmOutcome) (now : String) (store0 : Option CloneJob) : RunOutcome :=
  match waitForSubscriber attached 0 fuel with
  | none => { store := store0, trace := [], escaped := none, finished := false }
  | some _ =>
    match tryBody job_id scraping_result processing llm_call now ⟨store0, []⟩ with
    | .ok st => { store := st.store, trace := st.trace, escaped := none, finished := true }
    | .error (e, st) =>
      let h := exceptHandler job_id now e st
      { store := h.1.store, trace := h.1.trace, escaped := h.2, finished := true }

/-- The orchestrator composed with the program's actual processing step:
`processing` is instantiated with `process_scraping_data scraping_result`,
exactly as main.py line 199 awaits it. -/
def process_clone_job_real (job_id url : String) (attached : Nat → Bool) (fuel : Nat)
    (scraping_result : ScrapingResult) (llm_call : LlmOutcome) (now : String)
    (store0 : Option CloneJob) : RunOutcome :=
  process_clone_job job_id url attached fuel scraping_result
    (process_scraping_data scraping_result) llm_call now store0

/-- The `ConnectionManager` (main.py lines 72-91): `active_connections`
maps a job identifier to the websocket currently registered for it
(websockets are identified by an opaque numeric id here).  `connect`
replaces whatever socket is registered for the id, `disconnect` removes
the registration for the id unconditionally, `send_update` delivers to
the registered socket if any and is a silent no-op otherwise. -/
structure ConnectionManager where
  active_connections : String → Option Nat

/-- `ConnectionManager.connect` (lines 77-79): register `ws` as THE
socket for `job_id`, replacing any previous one. -/
def ConnectionManager.connect (m : ConnectionManager) (job_id : String) (ws : Nat) :
    ConnectionManager :=
  ⟨fun k => if k = job_id then some ws else m.active_connections k⟩

/-- `ConnectionManager.disconnect` (lines 81-84): drop whatever socket is
registered for `job_id` — the call is keyed by the job identifier only
and carries no socket identity. -/
def ConnectionManager.disconnect (m : ConnectionManager) (job_id : String) :
    ConnectionManager :=
  ⟨fun k => if k = job_id then none else m.active_connections k⟩

/-- `ConnectionManager.send_update` (lines 86-90): the socket a publish
for `job_id` is delivered to, `none` meaning the publish is dropped. -/
def ConnectionManager.send_update (m : ConnectionManager) (job_id : String) : Option Nat :=
  m.active_connections job_id

/-- The teardown path of `websocket_endpoint` (main.py lines 966-980):
whenever a websocket that was opened for `job_id` closes — for any
reason, and whether or not it is still the registered one — the `finally`
block calls `manager.disconnect(job_id)`. -/
def websocket_endpoint_close (m : ConnectionManager) (job_id : String) : ConnectionManager :=
  m.disconnect job_id

/-- A submitted URL for the concrete scenarios. -/
def sampleUrl : String := "https://example.com"

/-- A concrete successful scrape result for `sampleUrl`, as
`_perform_scraping` would return one. -/
def sampleSuccessResult : ScrapingResult :=
  { url := sampleUrl, screenshots := [("desktop", "iVBORw0KGgo")],
    dom_structure := "<html><body><h1>Example</h1></body></html>",
    extracted_css := [("body_styles", "background-color: #ffffff")],
    typography := { fonts := some ["Arial"] },
    color_palette := ["#123456", "#abcdef"],
    layout_info := { type := some "block" },
    assets := { images := some ["https://example.com/a.png"] },
    metadata := { title := some "Example Domain", description := some "Example" },
    success := true, error_message := none }

/-- A concrete processed-data dict for the scenarios. -/
def samplePd : ProcessedData :=
  { url := some sampleUrl, color_palette := some ["#123456", "#abcdef"],
    typography := some { fonts := some ["Arial"] },
    metadata := some { title := some "Example Domain" } }

/-- Shorthand for the job record of one submission at a given point of
its lifecycle (identity fields fixed, varying fields explicit;
`result_data` is `none` throughout, since the source never succeeds in
assigning it). -/
def jobAt (job_id url created : String) (s : CloneStatus) (p : Nat)
    (em ca : Option String) : CloneJob :=
  { job_id := job_id, status := s, url := url, progress := p, created_at := created,
    completed_at := ca, error_message := em, result_data := none }

/-- The message of the `AttributeError` that aborts both
`process_scraping_data` and the `result_data` assembly. -/
def attrErrMsg : String := PyErr.str video_recording_attr_error

/-- A list of naturals is non-decreasing. -/
def nonDecreasing : List Nat → Bool
  | a :: b :: rest => decide (a ≤ b) && nonDecreasing (b :: rest)
  | _ => true

/-- The progress values a status-polling reader can observe while the
job's status is non-terminal: the initial record followed by the record
after each committed mutation, restricted to non-terminal snapshots. -/
def nonTerminalProgressList (init : CloneJob) (t : List StoreAction) : List Nat :=
  ((init :: assignedSnapshots t).filter fun j => !(isTerminalStatus j.status)).map
    fun j => j.progress


/-! Helper lemmas about the three possible shapes of a gate-passing
orchestrator run on an existing job record. -/

/-- Closed form of a run whose scrape result is unsuccessful. -/
theorem run_scrape_failure (job_id url created now : String) (attached : Nat → Bool)
    (fuel k : Nat) (hw : waitForSubscriber attached 0 fuel = some k)
    (sr : ScrapingResult) (hs : sr.success = false)
    (pr : Except PyErr ProcessedData) (lc : LlmOutcome) :
    process_clone_job job_id url attached fuel sr pr lc now
        (some (makeCloneJob job_id url created)) =
      { store := some (jobAt job_id url created .failed 0 sr.error_message none),
        trace := [
          .assign (.status .scraping) (jobAt job_id url created .scraping 0 none none),
          .assign (.progress 10) (jobAt job_id url created .scraping 10 none none),
          .publish ⟨.scraping, 10, none⟩ (jobAt job_id url created .scraping 10 none none),
          .assign (.status .failed) (jobAt job_id url created .failed 10 none none),
          .assign (.progress 0) (jobAt job_id url created .failed 0 none none),
          .assign (.error_message sr.error_message)
            (jobAt job_id url created .failed 0 sr.error_message none),
          .publish ⟨.failed, 0, sr.error_message⟩
            (jobAt job_id url created .failed 0 sr.error_message none)],
        escaped := none, finished := true } := by
  obtain ⟨u, sc, dom, css, ty, cp, li, asts, md, succ, em⟩ := sr
  simp only [ScrapingResult.success] at hs
  subst hs
  simp only [process_clone_job, hw]
  rfl

/-- Closed form of a run whose scrape succeeds and whose processing step
raises: the top-level handler fails the job with the exception's message
and sets `completed_at`. -/
theorem run_processing_raise (job_id url created now : String) (attached : Nat → Bool)
    (fuel k : Nat) (hw : waitForSubscriber attached 0 fuel = some k)
    (sr : ScrapingResult) (hs : sr.success = true)
    (e : PyErr) (lc : LlmOutcome) :
    process_clone_job job_id url attached fuel sr (.error e) lc now
        (some (makeCloneJob job_id url created)) =
      { store := some (jobAt job_id url created .failed 0 (some (PyErr.str e)) (some now)),
        trace := [
          .assign (.status .scraping) (jobAt job_id url created .scraping 0 none none),
          .assign (.progress 10) (jobAt job_id url created .scraping 10 none none),
          .publish ⟨.scraping, 10, none⟩ (jobAt job_id url created .scraping 10 none none),
          .assign (.progress 50) (jobAt job_id url created .scraping 50 none none),
          .assign (.status .processing) (jobAt job_id url created .processing 50 none none),
          .publish ⟨.processing, 50, none⟩ (jobAt job_id url created .processing 50 none none),
          .assign (.status .failed) (jobAt job_id url created .failed 50 none none),
          .assign (.progress 0) (jobAt job_id url created .failed 0 none none),
          .assign (.error_message (some (PyErr.str e)))
            (jobAt job_id url created .failed 0 (some (PyErr.str e)) none),
          .assign (.completed_at (some now))
            (jobAt job_id url created .failed 0 (some (PyErr.str e)) (some now)),
          .publish ⟨.failed, 0, some (PyErr.str e)⟩
            (jobAt job_id url created .failed 0 (some (PyErr.str e)) (some now))],
        escaped := none, finished := true } := by
  obtain ⟨u, sc, dom, css, ty, cp, li, asts, md, succ, em⟩ := sr
  simp only [ScrapingResult.success] at hs
  subst hs
  simp only [process_clone_job, hw]
  rfl

set_option maxHeartbeats 2000000 in
/-- Closed form of a run whose scrape succeeds and whose processing step
returns a dict: the job is driven through `generating` and `completed`
(the completed event is published BEFORE `completed_at` is assigned), and
then the `result_data` assembly raises `AttributeError`, so the handler
re-fails the job. -/
theorem run_processing_ok (job_id url created now : String) (attached : Nat → Bool)
    (fuel k : Nat) (hw : waitForSubscriber attached 0 fuel = some k)
    (sr : ScrapingResult) (hs : sr.success = true)
    (pd : ProcessedData) (lc : LlmOutcome) :
    process_clone_job job_id url attached fuel sr (.ok pd) lc now
        (some (makeCloneJob job_id url created)) =
      { store := some (jobAt job_id url created .failed 0 (some attrErrMsg) (some now)),
        trace := [
          .assign (.status .scraping) (jobAt job_id url created .scraping 0 none none),
          .assign (.progress 10) (jobAt job_id url created .scraping 10 none none),
          .publish ⟨.scraping, 10, none⟩ (jobAt job_id url created .scraping 10 none none),
          .assign (.progress 50) (jobAt job_id url created .scraping 50 none none),
          .assign (.status .processing) (jobAt job_id url created .processing 50 none none),
          .publish ⟨.processing, 50, none⟩ (jobAt job_id url created .processing 50 none none),
          .assign (.progress 70) (jobAt job_id url created .processing 70 none none),
          .assign (.status .generating) (jobAt job_id url created .generating 70 none none),
          .publish ⟨.generating, 70, none⟩ (jobAt job_id url created .generating 70 none none),
          .assign (.status .completed) (jobAt job_id url created .completed 70 none none),
          .assign (.progress 100) (jobAt job_id url created .completed 100 none none),
          .publish ⟨.completed, 100, none⟩ (jobAt job_id url created .completed 100 none none),
          .assign (.completed_at (some now))
            (jobAt job_id url created .completed 100 none (some now)),
          .assign (.status .failed) (jobAt job_id url created .failed 100 none (some now)),
          .assign (.progress 0) (jobAt job_id url created .failed 0 none (some now)),
          .assign (.error_message (some attrErrMsg))
            (jobAt job_id url created .failed 0 (some attrErrMsg) (some now)),
          .assign (.completed_at (some now))
            (jobAt job_id url created .failed 0 (some attrErrMsg) (some now)),
          .publish ⟨.failed, 0, some attrErrMsg⟩
            (jobAt job_id url created .failed 0 (some attrErrMsg) (some now))],
        escaped := none, finished := true } := by
  obtain ⟨u, sc, dom, css, ty, cp, li, asts, md, succ, em⟩ := sr
  simp only [ScrapingResult.success] at hs
  subst hs
  simp only [process_clone_job, hw]
  rfl

/-- A string of the shape `pre ++ "<!DOCTYPE html>" ++ mid ++ "</html>"
++ post` is never empty. -/
theorem append_doc_ne_empty (pre mid post : String) :
    pre ++ "<!DOCTYPE html>" ++ mid ++ "</html>" ++ post ≠ "" := by
  intro h
  have h2 := congrArg String.length h
  simp only [String.length_append] at h2
  have hd : ("<!DOCTYPE html>" : String).length = 15 := rfl
  have hh : ("</html>" : String).length = 7 := rfl
  have he : ("" : String).length = 0 := rfl
  rw [hd, hh, he] at h2
  omega

/-- The fallback template, spelled as its document decomposition. -/
theorem create_fallback_html_decomp (pd : ProcessedData) :
    create_fallback_html pd =
      "\n        " ++ "<!DOCTYPE html>" ++
        fallbackInner (pd.color_palette.getD ["#ffffff", "#000000"])
          (((pd.typography.getD {}).fonts).getD ["Arial", "sans-serif"])
          (((pd.metadata.getD {}).title).getD "Cloned Website") (pd.url.getD "") ++
        "</html>" ++ "\n        " := rfl

/-- The local fallback never fails: on every processed-data dict —
including one with every key absent — it returns non-empty, well-formed
HTML document text. -/
theorem fallback_html_is_document (pd : ProcessedData) :
    isHtmlDocumentText (create_fallback_html pd) := by
  rw [isHtmlDocumentText, create_fallback_html_decomp]
  exact ⟨append_doc_ne_empty _ _ _, _, _, _, rfl⟩

/-- Closed form of the retry loop when every attempt raises: all
remaining iterations run, a backoff of `2 ^ attempt + jitter attempt` is
slept after every attempt but the last, `_perform_scraping` is never
reached, and the error result carries the LAST exception's message. -/
theorem scrapeLoop_all_raise (url : String) (msgs : Nat → String) (jitter : Nat → Rat)
    (hv : is_valid_url url = true) :
    ∀ rem i, 0 < rem →
      scrapeLoop url (fun t => .raiseExc (msgs t)) jitter i rem =
        { result := create_error_result url (msgs (i + rem - 1)),
          delays := (List.range (rem - 1)).map fun t => (2 : Rat) ^ (i + t) + jitter (i + t),
          attemptsRun := rem, performCalls := 0 } := by
  intro rem
  induction rem with
  | zero => intro i h; exact absurd h (by omega)
  | succ n ih =>
    intro i _
    rw [scrapeLoop]
    rw [hv]
    simp only [Bool.true_eq_false, if_false]
    cases n with
    | zero => simp
    | succ k =>
      rw [if_neg (by omega)]
      rw [ih (i + 1) (by omega)]
      have hres : i + 1 + (k + 1) - 1 = i + (k + 1 + 1) - 1 := by omega
      rw [hres]
      have hdel : ((2 : Rat) ^ i + jitter i) ::
          ((List.range (k + 1 - 1)).map fun t => (2 : Rat) ^ (i + 1 + t) + jitter (i + 1 + t)) =
          ((List.range (k + 1 + 1 - 1)).map fun t => (2 : Rat) ^ (i + t) + jitter (i + t)) := by
        rw [show k + 1 + 1 - 1 = k + 1 by omega, show k + 1 - 1 = k by omega,
          List.range_succ_eq_map, List.map_cons, List.map_map]
        refine congrArg₂ _ (by rw [Nat.add_zero]) ?_
        refine List.map_congr_left fun t _ => ?_
        simp only [Function.comp_apply]
        rw [show i + 1 + t = i + Nat.succ t by omega]
      rw [hdel]

/-- Every result `scrape_website` can actually return either succeeds or
carries an error message: the scraper never reports a message-less
failure. -/
theorem scrape_result_failure_has_message (url : String) (attempts : Nat → AttemptOutcome)
    (jitter : Nat → Rat) (n : Nat) :
    (scrape_website url attempts jitter n).result.success = true ∨
      ((scrape_website url attempts jitter n).result.error_message).isSome = true := by
  rw [scrape_website]
  generalize 0 = i
  induction n generalizing i with
  | zero => right; rfl
  | succ k ih =>
    by_cases hv : is_valid_url url = false
    · rw [scrapeLoop, if_pos hv]; right; rfl
    · cases hA : attempts i with
      | result r =>
        by_cases hr : r.success = true
        · left; simp only [scrapeLoop, if_neg hv, hA, if_pos hr]; exact hr
        · have := ih (i + 1)
          simp only [scrapeLoop, if_neg hv, hA, if_neg hr]
          exact this
      | raiseExc msg =>
        by_cases hk : k = 0
        · right; simp only [scrapeLoop, if_neg hv, hA, if_pos hk]; rfl
        · have := ih (i + 1)
          simp only [scrapeLoop, if_neg hv, hA, if_neg hk]
          exact this

/-- The per-attempt backoff delays grow strictly: with jitter drawn from
`[0, 1)`, `2 ^ a + jitter a < 2 ^ (a + 1) + jitter (a + 1)`. -/
theorem backoff_delays_strict_mono (jitter : Nat → Rat)
    (hj : ∀ i, 0 ≤ jitter i ∧ jitter i < 1) (m : Nat) :
    List.Chain' (· < ·) ((List.range m).map fun t => (2 : Rat) ^ t + jitter t) := by
  rw [List.chain'_map]
  cases m with
  | zero => simp
  | succ k =>
    rw [List.chain'_range_succ]
    intro m _
    obtain ⟨h0, h1⟩ := hj m
    obtain ⟨h2, _⟩ := hj (m + 1)
    have hp : (1 : Rat) ≤ 2 ^ m := one_le_pow₀ (by norm_num)
    have hs : (2 : Rat) ^ (m + 1) = 2 ^ m + 2 ^ m := by ring
    have hlt : (2 : Rat) ^ m + jitter m < 2 ^ (m + 1) + jitter (m + 1) := by linarith
    exact hlt

/-! Claim theorems. -/

/-- Claim C1 (code bug): submitting `"https://example.com"` with an
attached subscriber and a SUCCESSFUL scrape does not produce the happy
path.  The real composed run emits `(scraping, 10)`, `(processing, 50)`
and then a `(failed, 0)` event carrying the `AttributeError` message —
never `(generating, 70)` or `(completed, 100)` — and the final record is
`failed` with `result_data` unset, because `process_scraping_data` reads
`scraping_result.video_recording`, an attribute the `ScrapingResult`
dataclass does not declare. -/
theorem c1_happy_path_code_bug :
    sentEvents (process_clone_job_real "job-1" sampleUrl (fun _ => true) 1
        sampleSuccessResult (.content (some "<html></html>")) "T1"
        (some (makeCloneJob "job-1" sampleUrl "T0"))).trace =
      [{ status := .scraping, progress := 10, error_message := none },
       { status := .processing, progress := 50, error_message := none },
       { status := .failed, progress := 0,
         error_message := some "\x27ScrapingResult\x27 object has no attribute \x27video_recording\x27" }] ∧
    (process_clone_job_real "job-1" sampleUrl (fun _ => true) 1 sampleSuccessResult
        (.content (some "<html></html>")) "T1"
        (some (makeCloneJob "job-1" sampleUrl "T0"))).store =
      some (jobAt "job-1" sampleUrl "T0" .failed 0
        (some "\x27ScrapingResult\x27 object has no attribute \x27video_recording\x27")
        (some "T1")) := by
  exact ⟨rfl, rfl⟩

/-- Claim C7 (confirmed): the orchestrator emits no Progress Event and
does not advance the job past `pending` until a subscriber attaches — if
no subscriber ever attaches then, for every number of polls observed, the
run has published nothing, mutated nothing, and is still waiting. -/
theorem c7_subscriber_gate (attached : Nat → Bool) (fuel : Nat)
    (job_id url now : String) (sr : ScrapingResult) (pr : Except PyErr ProcessedData)
    (lc : LlmOutcome) (store0 : Option CloneJob)
    (h : ∀ n, attached n = false) :
    process_clone_job job_id url attached fuel sr pr lc now store0 =
      { store := store0, trace := [], escaped := none, finished := false } := by
  have hw : ∀ k f, waitForSubscriber attached k f = none := by
    intro k f
    induction f generalizing k with
    | zero => rfl
    | succ m ih => simp [waitForSubscriber, h k, ih]
  simp [process_clone_job, hw]

/-- Witness for C7: a run with no subscriber at fuel 5 is still pending
with an empty trace. -/
theorem c7_subscriber_gate_witness :
    (∀ n, (fun _ : Nat => false) n = false) ∧
    process_clone_job "j1" sampleUrl (fun _ => false) 5 sampleSuccessResult
        (.error (.exc "x")) (.content none) "T1" (some (makeCloneJob "j1" sampleUrl "T0")) =
      { store := some (makeCloneJob "j1" sampleUrl "T0"), trace := [], escaped := none,
        finished := false } :=
  ⟨fun _ => rfl,
   c7_subscriber_gate (fun _ => false) 5 "j1" sampleUrl "T1" sampleSuccessResult
     (.error (.exc "x")) (.content none) (some (makeCloneJob "j1" sampleUrl "T0"))
     (fun _ => rfl)⟩

/-- Claim C10 (confirmed): `disconnect` is keyed by the job identifier
only.  After a second subscriber replaces the first, the close of ANY
websocket opened for that job identifier — in particular the replaced
first subscriber's — removes the currently registered second subscriber,
and every subsequent publish is silently dropped. -/
theorem c10_detach_keyed_by_job_id (m : ConnectionManager) (job_id : String) (a b : Nat) :
    ((m.connect job_id a).connect job_id b).send_update job_id = some b ∧
    (websocket_endpoint_close ((m.connect job_id a).connect job_id b) job_id).send_update
        job_id = none ∧
    (websocket_endpoint_close ((m.connect job_id a).connect job_id b) job_id).active_connections
        job_id = none := by
  refine ⟨?_, ?_, ?_⟩ <;>
    simp [ConnectionManager.connect, ConnectionManager.disconnect,
      ConnectionManager.send_update, websocket_endpoint_close]

/-- Claim C2, counterexample: a job failed by an unsuccessful scrape
(main.py lines 170-184) is terminal with a set `error_message` but with
`completed_at` UNSET — refuting "`completed_at` is set if and only if the
job's status is terminal". -/
theorem c2_terminal_fields_counterexample :
    (process_clone_job "j1" sampleUrl (fun _ => true) 1
        (create_error_result sampleUrl "boom") (.error (.exc "x")) (.content none) "T1"
        (some (makeCloneJob "j1" sampleUrl "T0"))).store =
      some (jobAt "j1" sampleUrl "T0" .failed 0 (some "boom") none) ∧
    isTerminalStatus (jobAt "j1" sampleUrl "T0" .failed 0 (some "boom") none).status = true ∧
    (jobAt "j1" sampleUrl "T0" .failed 0 (some "boom") none).completed_at = none := by
  exact ⟨rfl, rfl, rfl⟩

/-- Claim C2, amended: after any gate-passing orchestrator run on an
existing record (with a scrape result that, as every result the scraper
actually returns, carries an error message when unsuccessful) the final
record is `failed`; `error_message` is set iff status is failed,
`result_data` is set iff status is completed, and exactly one of the two
is set; but `completed_at` is set iff the failure went through the
exception handler (i.e. iff the scrape was successful) — the
scrape-failure path leaves `completed_at` unset. -/
theorem c2_terminal_fields_amended (job_id url created now : String)
    (attached : Nat → Bool) (fuel k : Nat)
    (hw : waitForSubscriber attached 0 fuel = some k)
    (sr : ScrapingResult) (pr : Except PyErr ProcessedData) (lc : LlmOutcome)
    (hmsg : sr.success = false → sr.error_message.isSome = true) :
    ∃ j, (process_clone_job job_id url attached fuel sr pr lc now
        (some (makeCloneJob job_id url created))).store = some j ∧
      j.status = .failed ∧
      j.error_message.isSome = true ∧
      j.result_data = none ∧
      j.completed_at = (if sr.success = true then some now else none) ∧
      (j.error_message.isSome = true ↔ j.status = .failed) ∧
      (j.result_data.isSome = true ↔ j.status = .completed) := by
  cases hs : sr.success with
  | false =>
    rw [run_scrape_failure job_id url created now attached fuel k hw sr hs pr lc]
    have hm := hmsg hs
    refine ⟨jobAt job_id url created .failed 0 sr.error_message none, rfl, rfl, hm, rfl,
      by simp [hs, jobAt], ?_, ?_⟩
    · simp [jobAt, hm]
    · simp [jobAt]
  | true =>
    cases pr with
    | error e =>
      rw [run_processing_raise job_id url created now attached fuel k hw sr hs e lc]
      exact ⟨jobAt job_id url created .failed 0 (some (PyErr.str e)) (some now), rfl, rfl,
        rfl, rfl, by simp [hs, jobAt], by simp [jobAt], by simp [jobAt]⟩
    | ok pd =>
      rw [run_processing_ok job_id url created now attached fuel k hw sr hs pd lc]
      exact ⟨jobAt job_id url created .failed 0 (some attrErrMsg) (some now), rfl, rfl,
        rfl, rfl, by simp [hs, jobAt], by simp [jobAt], by simp [jobAt]⟩

/-- Witness for the amended C2, at a concrete scrape-failure run. -/
theorem c2_terminal_fields_amended_witness :
    waitForSubscriber (fun _ => true) 0 1 = some 0 ∧
    ((create_error_result sampleUrl "boom").success = false →
      (create_error_result sampleUrl "boom").error_message.isSome = true) ∧
    (∃ j, (process_clone_job "j1" sampleUrl (fun _ => true) 1
        (create_error_result sampleUrl "boom") (.error (.exc "x")) (.content none) "T1"
        (some (makeCloneJob "j1" sampleUrl "T0"))).store = some j ∧
      j.status = .failed ∧
      j.error_message.isSome = true ∧
      j.result_data = none ∧
      j.completed_at =
        (if (create_error_result sampleUrl "boom").success = true then some "T1" else none) ∧
      (j.error_message.isSome = true ↔ j.status = .failed) ∧
      (j.result_data.isSome = true ↔ j.status = .completed)) :=
  ⟨rfl, fun _ => rfl,
   c2_terminal_fields_amended "j1" sampleUrl "T0" "T1" (fun _ => true) 1 0 rfl
     (create_error_result sampleUrl "boom") (.error (.exc "x")) (.content none)
     (fun _ => rfl)⟩

/-- Claim C3, counterexample: in a run whose processing step returns a
dict, the fourth publish is the `(completed, 100)` event, and the store
snapshot it was built from still has `completed_at = none` and
`result_data = none` — the terminal fields of the completed transition
are committed (or, for `result_data`, never committed) only AFTER the
event is published, refuting store-then-publish for that transition. -/
theorem c3_store_then_publish_counterexample :
    (publishes (process_clone_job "j1" sampleUrl (fun _ => true) 1 sampleSuccessResult
        (.ok samplePd) (.content (some "<p>x</p>")) "T1"
        (some (makeCloneJob "j1" sampleUrl "T0"))).trace).getD 3
        ({ status := .pending, progress := 0 }, makeCloneJob "" "" "") =
      ({ status := .completed, progress := 100, error_message := none },
       jobAt "j1" sampleUrl "T0" .completed 100 none none) ∧
    (jobAt "j1" sampleUrl "T0" .completed 100 none none).completed_at = none ∧
    (jobAt "j1" sampleUrl "T0" .completed 100 none none).result_data = none := by
  exact ⟨rfl, rfl, rfl⟩

/-- Claim C3, amended: on every gate-passing run, each published event
agrees with the store snapshot it was built from on status and progress,
and a `failed` event's error message is the committed one; but for the
`completed` event the transition's terminal fields are NOT yet committed:
its snapshot has `completed_at = none` and `result_data = none`. -/
theorem c3_store_then_publish_amended (job_id url created now : String)
    (attached : Nat → Bool) (fuel k : Nat)
    (hw : waitForSubscriber attached 0 fuel = some k)
    (sr : ScrapingResult) (pr : Except PyErr ProcessedData) (lc : LlmOutcome) :
    ∀ p ∈ publishes (process_clone_job job_id url attached fuel sr pr lc now
        (some (makeCloneJob job_id url created))).trace,
      p.2.status = p.1.status ∧ p.2.progress = p.1.progress ∧
      (p.1.status = .failed → p.1.error_message = p.2.error_message) ∧
      (p.1.status = .completed → p.2.completed_at = none ∧ p.2.result_data = none) := by
  intro p hp
  cases hs : sr.success with
  | false =>
    rw [run_scrape_failure job_id url created now attached fuel k hw sr hs pr lc] at hp
    simp only [publishes, List.filterMap_cons, List.filterMap_nil, List.mem_cons,
      List.not_mem_nil, or_false] at hp
    rcases hp with h | h <;> subst h
    · exact ⟨rfl, rfl, fun h => by simp at h, fun h => by simp at h⟩
    · exact ⟨rfl, rfl, fun _ => rfl, fun h => by simp at h⟩
  | true =>
    cases pr with
    | error e =>
      rw [run_processing_raise job_id url created now attached fuel k hw sr hs e lc] at hp
      simp only [publishes, List.filterMap_cons, List.filterMap_nil, List.mem_cons,
        List.not_mem_nil, or_false] at hp
      rcases hp with h | h | h <;> subst h
      · exact ⟨rfl, rfl, fun h => by simp at h, fun h => by simp at h⟩
      · exact ⟨rfl, rfl, fun h => by simp at h, fun h => by simp at h⟩
      · exact ⟨rfl, rfl, fun _ => rfl, fun h => by simp at h⟩
    | ok pd =>
      rw [run_processing_ok job_id url created now attached fuel k hw sr hs pd lc] at hp
      simp only [publishes, List.filterMap_cons, List.filterMap_nil, List.mem_cons,
        List.not_mem_nil, or_false] at hp
      rcases hp with h | h | h | h | h <;> subst h
      · exact ⟨rfl, rfl, fun h => by simp at h, fun h => by simp at h⟩
      · exact ⟨rfl, rfl, fun h => by simp at h, fun h => by simp at h⟩
      · exact ⟨rfl, rfl, fun h => by simp at h, fun h => by simp at h⟩
      · exact ⟨rfl, rfl, fun h => by simp at h, fun _ => ⟨rfl, rfl⟩⟩
      · exact ⟨rfl, rfl, fun _ => rfl, fun h => by simp at h⟩

/-- Witness for the amended C3, at a concrete scrape-failure run. -/
theorem c3_store_then_publish_amended_witness :
    waitForSubscriber (fun _ => true) 0 1 = some 0 ∧
    (∀ p ∈ publishes (process_clone_job "j1" sampleUrl (fun _ => true) 1
        (create_error_result sampleUrl "boom") (.error (.exc "x")) (.content none) "T1"
        (some (makeCloneJob "j1" sampleUrl "T0"))).trace,
      p.2.status = p.1.status ∧ p.2.progress = p.1.progress ∧
      (p.1.status = .failed → p.1.error_message = p.2.error_message) ∧
      (p.1.status = .completed → p.2.completed_at = none ∧ p.2.result_data = none)) :=
  ⟨rfl,
   c3_store_then_publish_amended "j1" sampleUrl "T0" "T1" (fun _ => true) 1 0 rfl
     (create_error_result sampleUrl "boom") (.error (.exc "x")) (.content none)⟩

/-- Claim C8 (confirmed): on every gate-passing run on a fresh record,
the progress values observable while status is non-terminal form a
non-decreasing sequence, every `progress = 0` assignment immediately
follows the `status = failed` assignment of a transition into the failed
state, and there is exactly one such assignment in the run. -/
theorem c8_monotonic_progress (job_id url created now : String)
    (attached : Nat → Bool) (fuel k : Nat)
    (hw : waitForSubscriber attached 0 fuel = some k)
    (sr : ScrapingResult) (pr : Except PyErr ProcessedData) (lc : LlmOutcome) :
    nonDecreasing (nonTerminalProgressList (makeCloneJob job_id url created)
        (process_clone_job job_id url attached fuel sr pr lc now
          (some (makeCloneJob job_id url created))).trace) = true ∧
    okZeroPlacement (process_clone_job job_id url attached fuel sr pr lc now
        (some (makeCloneJob job_id url created))).trace = true ∧
    (progressZeroAssigns (process_clone_job job_id url attached fuel sr pr lc now
        (some (makeCloneJob job_id url created))).trace).length = 1 := by
  cases hs : sr.success with
  | false =>
    rw [run_scrape_failure job_id url created now attached fuel k hw sr hs pr lc]
    exact ⟨rfl, rfl, rfl⟩
  | true =>
    cases pr with
    | error e =>
      rw [run_processing_raise job_id url created now attached fuel k hw sr hs e lc]
      exact ⟨rfl, rfl, rfl⟩
    | ok pd =>
      rw [run_processing_ok job_id url created now attached fuel k hw sr hs pd lc]
      exact ⟨rfl, rfl, rfl⟩

/-- Witness for C8, at a concrete run that passes through the completed
publish before failing on the `result_data` assembly. -/
theorem c8_monotonic_progress_witness :
    waitForSubscriber (fun _ => true) 0 1 = some 0 ∧
    (nonDecreasing (nonTerminalProgressList (makeCloneJob "j1" sampleUrl "T0")
        (process_clone_job "j1" sampleUrl (fun _ => true) 1 sampleSuccessResult
          (.ok samplePd) (.content none) "T1"
          (some (makeCloneJob "j1" sampleUrl "T0"))).trace) = true ∧
    okZeroPlacement (process_clone_job "j1" sampleUrl (fun _ => true) 1 sampleSuccessResult
        (.ok samplePd) (.content none) "T1"
        (some (makeCloneJob "j1" sampleUrl "T0"))).trace = true ∧
    (progressZeroAssigns (process_clone_job "j1" sampleUrl (fun _ => true) 1
        sampleSuccessResult (.ok samplePd) (.content none) "T1"
        (some (makeCloneJob "j1" sampleUrl "T0"))).trace).length = 1) :=
  ⟨rfl,
   c8_monotonic_progress "j1" sampleUrl "T0" "T1" (fun _ => true) 1 0 rfl
     sampleSuccessResult (.ok samplePd) (.content none)⟩

/-- Claim C4, counterexample: when the generation call succeeds but its
message content is `None` — a failure ("empty content") in the spec's
taxonomy — `generate_html_with_llm` returns the EMPTY string instead of
substituting the fallback (main.py lines 311-312); and even when the call
raises, the job does not end `completed`: the run that absorbs the
generation failure still finishes `failed` on the `result_data`
assembly. -/
theorem c4_generation_fallback_counterexample :
    generate_html_with_llm samplePd (.content none) = "" ∧
    create_fallback_html samplePd ≠ "" ∧
    (process_clone_job "j1" sampleUrl (fun _ => true) 1 sampleSuccessResult
        (.ok samplePd) (.raiseExc "connection error") "T1"
        (some (makeCloneJob "j1" sampleUrl "T0"))).finalStatus = some .failed :=
  ⟨rfl, (fallback_html_is_document samplePd).1, rfl⟩

/-- Claim C4, amended: when the generation call RAISES, the orchestrator
substitutes the deterministic local fallback — `generate_html_with_llm`
returns `create_fallback_html(processed_data)`, which never fails and is
non-empty well-formed HTML document text even when every profile key is
absent — and the run still performs the `generating → completed`
transition, publishing `(generating, 70)` and `(completed, 100)`; but
when the call returns `None` content the empty string is used with no
fallback, and the final stored state is `failed` (the `result_data`
assembly aborts the completion), not `completed`. -/
theorem c4_generation_fallback_amended (pd : ProcessedData) (msg : String)
    (job_id url created now : String) (attached : Nat → Bool) (fuel k : Nat)
    (hw : waitForSubscriber attached 0 fuel = some k)
    (sr : ScrapingResult) (hs : sr.success = true) :
    generate_html_with_llm pd (.raiseExc msg) = create_fallback_html pd ∧
    isHtmlDocumentText (create_fallback_html pd) ∧
    sentEvents (process_clone_job job_id url attached fuel sr (.ok pd) (.raiseExc msg) now
        (some (makeCloneJob job_id url created))).trace =
      [{ status := .scraping, progress := 10, error_message := none },
       { status := .processing, progress := 50, error_message := none },
       { status := .generating, progress := 70, error_message := none },
       { status := .completed, progress := 100, error_message := none },
       { status := .failed, progress := 0, error_message := some attrErrMsg }] := by
  refine ⟨rfl, fallback_html_is_document pd, ?_⟩
  rw [run_processing_ok job_id url created now attached fuel k hw sr hs pd (.raiseExc msg)]
  rfl

/-- Witness for the amended C4, with an entirely empty processed-data
dict (every key absent) and a concrete raising call. -/
theorem c4_generation_fallback_amended_witness :
    waitForSubscriber (fun _ => true) 0 1 = some 0 ∧
    sampleSuccessResult.success = true ∧
    (generate_html_with_llm {} (.raiseExc "net down") = create_fallback_html {} ∧
    isHtmlDocumentText (create_fallback_html {}) ∧
    sentEvents (process_clone_job "j1" sampleUrl (fun _ => true) 1 sampleSuccessResult
        (.ok {}) (.raiseExc "net down") "T1"
        (some (makeCloneJob "j1" sampleUrl "T0"))).trace =
      [{ status := .scraping, progress := 10, error_message := none },
       { status := .processing, progress := 50, error_message := none },
       { status := .generating, progress := 70, error_message := none },
       { status := .completed, progress := 100, error_message := none },
       { status := .failed, progress := 0, error_message := some attrErrMsg }]) :=
  ⟨rfl, rfl,
   c4_generation_fallback_amended {} "net down" "j1" sampleUrl "T0" "T1" (fun _ => true)
     1 0 rfl sampleSuccessResult rfl⟩

/-- Claim C5, counterexample: submitting `"not-a-url"` DOES enter the
scraping state before failing: the orchestrator first commits
`status = scraping, progress = 10` and publishes `(scraping, 10)`, and
only then the scrape call fails fast with `"not valid"`. -/
theorem c5_invalid_url_counterexample :
    is_valid_url "not-a-url" = false ∧
    (scrape_website "not-a-url" (fun _ => .raiseExc "never") (fun _ => 0) 3).result =
      create_error_result "not-a-url" "not valid" ∧
    sentEvents (process_clone_job "j1" "not-a-url" (fun _ => true) 1
        (scrape_website "not-a-url" (fun _ => .raiseExc "never") (fun _ => 0) 3).result
        (.error (.exc "x")) (.content none) "T1"
        (some (makeCloneJob "j1" "not-a-url" "T0"))).trace =
      [{ status := .scraping, progress := 10, error_message := none },
       { status := .failed, progress := 0, error_message := some "not valid" }] ∧
    ((assignedSnapshots (process_clone_job "j1" "not-a-url" (fun _ => true) 1
        (scrape_website "not-a-url" (fun _ => .raiseExc "never") (fun _ => 0) 3).result
        (.error (.exc "x")) (.content none) "T1"
        (some (makeCloneJob "j1" "not-a-url" "T0"))).trace).map fun j => j.status) =
      [.scraping, .scraping, .failed, .failed, .failed] :=
  ⟨rfl, rfl, rfl, rfl⟩

/-- Claim C5, amended: an invalid URL (no scheme or no host) fails fast
on the first scrape attempt — no browser invocation, no backoff delay,
no retry consumed — and the job ends `failed` with progress 0 and the
non-empty message `"not valid"`; but the orchestrator FIRST transitions
the job into `scraping` (status scraping, progress 10, one published
event) before the scrape call rejects the URL, and `completed_at` stays
unset. -/
theorem c5_invalid_url_amended (url : String) (hinv : is_valid_url url = false)
    (attempts : Nat → AttemptOutcome) (jitter : Nat → Rat) (n : Nat) (hn : 0 < n)
    (job_id created now : String) (attached : Nat → Bool) (fuel k : Nat)
    (hw : waitForSubscriber attached 0 fuel = some k)
    (pr : Except PyErr ProcessedData) (lc : LlmOutcome) :
    scrape_website url attempts jitter n =
      { result := create_error_result url "not valid", delays := [],
        attemptsRun := 1, performCalls := 0 } ∧
    sentEvents (process_clone_job job_id url attached fuel
        (scrape_website url attempts jitter n).result pr lc now
        (some (makeCloneJob job_id url created))).trace =
      [{ status := .scraping, progress := 10, error_message := none },
       { status := .failed, progress := 0, error_message := some "not valid" }] ∧
    (process_clone_job job_id url attached fuel
        (scrape_website url attempts jitter n).result pr lc now
        (some (makeCloneJob job_id url created))).store =
      some (jobAt job_id url created .failed 0 (some "not valid") none) := by
  have hscrape : scrape_website url attempts jitter n =
      { result := create_error_result url "not valid", delays := [],
        attemptsRun := 1, performCalls := 0 } := by
    cases n with
    | zero => exact absurd hn (by omega)
    | succ m => rw [scrape_website, scrapeLoop, if_pos hinv]
  refine ⟨hscrape, ?_, ?_⟩
  · rw [hscrape,
      run_scrape_failure job_id url created now attached fuel k hw _ rfl pr lc]
    rfl
  · rw [hscrape,
      run_scrape_failure job_id url created now attached fuel k hw _ rfl pr lc]
    rfl

/-- Witness for the amended C5, at the concrete submission
`"not-a-url"`. -/
theorem c5_invalid_url_amended_witness :
    is_valid_url "not-a-url" = false ∧
    0 < 3 ∧
    waitForSubscriber (fun _ => true) 0 1 = some 0 ∧
    (scrape_website "not-a-url" (fun _ => .raiseExc "never") (fun _ => (1 : Rat) / 2) 3 =
      { result := create_error_result "not-a-url" "not valid", delays := [],
        attemptsRun := 1, performCalls := 0 } ∧
    sentEvents (process_clone_job "j1" "not-a-url" (fun _ => true) 1
        (scrape_website "not-a-url" (fun _ => .raiseExc "never")
          (fun _ => (1 : Rat) / 2) 3).result (.error (.exc "x")) (.content none) "T1"
        (some (makeCloneJob "j1" "not-a-url" "T0"))).trace =
      [{ status := .scraping, progress := 10, error_message := none },
       { status := .failed, progress := 0, error_message := some "not valid" }] ∧
    (process_clone_job "j1" "not-a-url" (fun _ => true) 1
        (scrape_website "not-a-url" (fun _ => .raiseExc "never")
          (fun _ => (1 : Rat) / 2) 3).result (.error (.exc "x")) (.content none) "T1"
        (some (makeCloneJob "j1" "not-a-url" "T0"))).store =
      some (jobAt "j1" "not-a-url" "T0" .failed 0 (some "not valid") none)) :=
  ⟨rfl, by omega, rfl,
   c5_invalid_url_amended "not-a-url" rfl (fun _ => .raiseExc "never")
     (fun _ => (1 : Rat) / 2) 3 (by omega) "j1" "T0" "T1" (fun _ => true) 1 0 rfl
     (.error (.exc "x")) (.content none)⟩

/-- Claim C6, counterexample: a scraper whose attempts all FAIL by
returning unsuccessful results (the way real scrape failures surface —
`_perform_scraping` catches its own exceptions) is retried with NO
backoff delay at all, and the final error message is the loop fallback
`"Max retries exceeded"`, not the last failure's message `"boom"`. -/
theorem c6_retry_backoff_counterexample :
    (scrape_website sampleUrl
        (fun _ => .result (create_error_result sampleUrl "boom")) (fun _ => 0) 3).attemptsRun
      = 3 ∧
    (scrape_website sampleUrl
        (fun _ => .result (create_error_result sampleUrl "boom")) (fun _ => 0) 3).delays
      = [] ∧
    (scrape_website sampleUrl
        (fun _ => .result (create_error_result sampleUrl "boom"))
        (fun _ => 0) 3).result.error_message = some "Max retries exceeded" ∧
    (some "Max retries exceeded" : Option String) ≠ some "boom" :=
  ⟨rfl, rfl, rfl, by decide⟩

/-- Claim C6, amended: when every attempt RAISES an exception (the only
failure mode the backoff branch handles, reached e.g. when browser
initialization fails), `scrape_website` runs exactly `max_retries`
attempts, sleeps `2 ^ attempt + jitter attempt` after each attempt but
the last — strictly increasing waits for jitter in `[0, 1)` — and the
failed job carries progress 0 and the LAST exception's message; but when
attempts fail by returning unsuccessful scrape results, the loop retries
with no delay and reports `"Max retries exceeded"` instead (see the
counterexample). -/
theorem c6_retry_backoff_amended (url : String) (hv : is_valid_url url = true)
    (msgs : Nat → String) (jitter : Nat → Rat) (n : Nat) (hn : 0 < n)
    (hj : ∀ i, 0 ≤ jitter i ∧ jitter i < 1)
    (job_id created now : String) (attached : Nat → Bool) (fuel k : Nat)
    (hw : waitForSubscriber attached 0 fuel = some k)
    (pr : Except PyErr ProcessedData) (lc : LlmOutcome) :
    (scrape_website url (fun t => .raiseExc (msgs t)) jitter n).attemptsRun = n ∧
    (scrape_website url (fun t => .raiseExc (msgs t)) jitter n).performCalls = 0 ∧
    (scrape_website url (fun t => .raiseExc (msgs t)) jitter n).delays =
      ((List.range (n - 1)).map fun t => (2 : Rat) ^ t + jitter t) ∧
    List.Chain' (· < ·) (scrape_website url (fun t => .raiseExc (msgs t)) jitter n).delays ∧
    (scrape_website url (fun t => .raiseExc (msgs t)) jitter n).result.error_message =
      some (msgs (n - 1)) ∧
    (process_clone_job job_id url attached fuel
        (scrape_website url (fun t => .raiseExc (msgs t)) jitter n).result pr lc now
        (some (makeCloneJob job_id url created))).store =
      some (jobAt job_id url created .failed 0 (some (msgs (n - 1))) none) := by
  have hrun : scrape_website url (fun t => .raiseExc (msgs t)) jitter n =
      { result := create_error_result url (msgs (n - 1)),
        delays := (List.range (n - 1)).map fun t => (2 : Rat) ^ t + jitter t,
        attemptsRun := n, performCalls := 0 } := by
    rw [scrape_website, scrapeLoop_all_raise url msgs jitter hv n 0 hn]
    congr 1
    · rw [Nat.zero_add]
    · exact List.map_congr_left fun t _ => by rw [Nat.zero_add]
  refine ⟨?_, ?_, ?_, ?_, ?_, ?_⟩
  · rw [hrun]
  · rw [hrun]
  · rw [hrun]
  · rw [hrun]; exact backoff_delays_strict_mono jitter hj (n - 1)
  · rw [hrun]; rfl
  · rw [hrun,
      run_scrape_failure job_id url created now attached fuel k hw _ rfl pr lc]
    rfl

/-- Witness for the amended C6: three attempts all raising `"boom"`,
jitter constantly one half. -/
theorem c6_retry_backoff_amended_witness :
    is_valid_url sampleUrl = true ∧
    0 < 3 ∧
    (∀ i : Nat, 0 ≤ (fun _ : Nat => (1 : Rat) / 2) i ∧ (fun _ : Nat => (1 : Rat) / 2) i < 1) ∧
    waitForSubscriber (fun _ => true) 0 1 = some 0 ∧
    ((scrape_website sampleUrl (fun t => .raiseExc ((fun _ : Nat => "boom") t))
        (fun _ => (1 : Rat) / 2) 3).attemptsRun = 3 ∧
    (scrape_website sampleUrl (fun t => .raiseExc ((fun _ : Nat => "boom") t))
        (fun _ => (1 : Rat) / 2) 3).performCalls = 0 ∧
    (scrape_website sampleUrl (fun t => .raiseExc ((fun _ : Nat => "boom") t))
        (fun _ => (1 : Rat) / 2) 3).delays =
      ((List.range (3 - 1)).map fun t => (2 : Rat) ^ t + (fun _ : Nat => (1 : Rat) / 2) t) ∧
    List.Chain' (· < ·) (scrape_website sampleUrl
        (fun t => .raiseExc ((fun _ : Nat => "boom") t)) (fun _ => (1 : Rat) / 2) 3).delays ∧
    (scrape_website sampleUrl (fun t => .raiseExc ((fun _ : Nat => "boom") t))
        (fun _ => (1 : Rat) / 2) 3).result.error_message =
      some ((fun _ : Nat => "boom") (3 - 1)) ∧
    (process_clone_job "j1" sampleUrl (fun _ => true) 1
        (scrape_website sampleUrl (fun t => .raiseExc ((fun _ : Nat => "boom") t))
          (fun _ => (1 : Rat) / 2) 3).result (.error (.exc "x")) (.content none) "T1"
        (some (makeCloneJob "j1" sampleUrl "T0"))).store =
      some (jobAt "j1" sampleUrl "T0" .failed 0 (some ((fun _ : Nat => "boom") (3 - 1))) none)) :=
  ⟨rfl, by omega, fun _ => ⟨by norm_num, by norm_num⟩, rfl,
   c6_retry_backoff_amended sampleUrl rfl (fun _ => "boom") (fun _ => (1 : Rat) / 2) 3
     (by omega) (fun _ => ⟨by norm_num, by norm_num⟩) "j1" "T0" "T1" (fun _ => true) 1 0 rfl
     (.error (.exc "x")) (.content none)⟩

/-- Claim C9, counterexample: when the job record has been deleted
before the orchestrator's first store mutation, the run raises an
UNHANDLED `KeyError` out of the detached orchestration unit (the `except`
handler's own first dict indexing re-raises), refuting "it neither
recreates the record nor raises an unhandled fault". -/
theorem c9_deleted_job_counterexample :
    (process_clone_job "j1" sampleUrl (fun _ => true) 1 sampleSuccessResult
        (.error (.exc "x")) (.content none) "T1" none).escaped =
      some (.keyError "j1") ∧
    (process_clone_job "j1" sampleUrl (fun _ => true) 1 sampleSuccessResult
        (.error (.exc "x")) (.content none) "T1" none).store = none ∧
    (process_clone_job "j1" sampleUrl (fun _ => true) 1 sampleSuccessResult
        (.error (.exc "x")) (.content none) "T1" none).trace = [] :=
  ⟨rfl, rfl, rfl⟩

/-- Claim C9, amended: a store mutation on a deleted record raises
`KeyError` and never recreates the record; inside the orchestrator the
top-level handler's own first mutation raises again, so for every
gate-passing run on a deleted record the `KeyError` ESCAPES the detached
orchestration unit, with no event published and the record still
absent. -/
theorem c9_deleted_job_amended (job_id url now : String) (attached : Nat → Bool)
    (fuel k : Nat) (hw : waitForSubscriber attached 0 fuel = some k)
    (sr : ScrapingResult) (pr : Except PyErr ProcessedData) (lc : LlmOutcome) :
    (∀ st : St, st.store = none → ∀ f,
        St.mutate st job_id f = .error (PyErr.keyError job_id, st)) ∧
    process_clone_job job_id url attached fuel sr pr lc now none =
      { store := none, trace := [], escaped := some (.keyError job_id),
        finished := true } := by
  constructor
  · intro st h f
    simp [St.mutate, h]
  · simp only [process_clone_job, hw]
    rfl

/-- Witness for the amended C9, at a concrete deleted-record run. -/
theorem c9_deleted_job_amended_witness :
    waitForSubscriber (fun _ => true) 0 1 = some 0 ∧
    ((∀ st : St, st.store = none → ∀ f,
        St.mutate st "j1" f = .error (PyErr.keyError "j1", st)) ∧
    process_clone_job "j1" sampleUrl (fun _ => true) 1 sampleSuccessResult
        (.error (.exc "x")) (.content none) "T1" none =
      { store := none, trace := [], escaped := some (.keyError "j1"),
        finished := true }) :=
  ⟨rfl,
   c9_deleted_job_amended "j1" sampleUrl "T1" (fun _ => true) 1 0 rfl
     sampleSuccessResult (.error (.exc "x")) (.content none)⟩
